import Mathlib

/-!
Shallow embedding of `eda-analysis.py` (ZEOTAP assignment EDA script).

The program loads three CSV tables (customers, products, transactions),
computes descriptive statistics, renders charts, and writes one derived
table produced by `analyze_customer_behavior`.  We embed:

  * the row/table data model of the three CSV inputs (identifiers and the
    transaction identifier / customer identifier may be null, as pandas
    reads missing CSV cells as NaN);
  * `analyze_customer_behavior` (lines 95-115): a merge against the
    customers table whose result is discarded, followed by
    `transactions_df.groupby('CustomerID').agg({'TransactionID': 'count',
    'TotalValue': ['sum', 'mean'], 'Quantity': 'sum'}).reset_index()` and a
    column rename.  Pandas semantics embedded here: `groupby` drops null
    keys and sorts the distinct keys ascending (`sort=True` default);
    `'count'` counts the non-null entries of the named column; `'sum'` and
    `'mean'` reduce the (non-null) column values, `mean` dividing by the
    number of values; missing columns raise `KeyError`, modelled as a
    schema error;
  * the column-mutation footprint of `perform_eda` (lines 49-50, in-place
    addition of `Year` and `Month` to the transactions table) and
    `generate_visualizations` (line 84, in-place addition of `YearMonth`).

Monetary values are embedded as exact rationals; the floating-point
tolerances of the specification are satisfied by exact equalities.
-/

/-- A row of `Transactions.csv`.  `TransactionID` and `CustomerID` are
nullable (pandas reads a missing cell as NaN); `Quantity` and `TotalValue`
are the numeric fields the aggregation reduces. -/
structure TransRow where
  transactionId : Option Nat
  customerId : Option Nat
  productId : Option Nat
  quantity : Int
  totalValue : Rat
  deriving Repr, DecidableEq

/-- Which columns the transactions table actually has.  `pd.merge` and
`groupby(...).agg` raise `KeyError` when a referenced column is absent. -/
structure TransSchema where
  hasTransactionId : Bool
  hasCustomerId : Bool
  hasProductId : Bool
  hasQuantity : Bool
  hasTotalValue : Bool
  hasTransactionDate : Bool
  deriving Repr, DecidableEq

/-- The transactions table: its columns and its rows. -/
structure TransTable where
  schema : TransSchema
  rows : List TransRow
  deriving Repr, DecidableEq

/-- A row of `Customers.csv` (fields used by `analyze_customer_behavior`). -/
structure CustRow where
  customerId : Nat
  region : String
  deriving Repr, DecidableEq

/-- Which columns the customers table has.  `customers_df[['CustomerID',
'Region']]` raises `KeyError` when either is absent. -/
structure CustSchema where
  hasCustomerId : Bool
  hasRegion : Bool
  hasSignupDate : Bool
  deriving Repr, DecidableEq

/-- The customers table. -/
structure CustomersTable where
  schema : CustSchema
  rows : List CustRow
  deriving Repr, DecidableEq

/-- A row of the output table `customer_metrics` after the rename on line
113 of `eda-analysis.py`. -/
structure BehaviorRow where
  customerId : Nat
  total_transactions : Nat
  total_spend : Rat
  avg_transaction_value : Rat
  total_items : Int
  deriving Repr, DecidableEq

/-- The output table: its column headers (set unconditionally on line 113)
and its rows. -/
structure BehaviorOutput where
  columns : List String
  rows : List BehaviorRow
  deriving Repr, DecidableEq

/-- The failure mode of the embedded fragment: a referenced column is
absent (pandas `KeyError`). -/
inductive SchemaError where
  | missingColumn
  deriving Repr, DecidableEq

/-- The five output column names assigned on line 113. -/
def outputColumns : List String :=
  ["CustomerID", "total_transactions", "total_spend", "avg_transaction_value", "total_items"]

/-- The rows of `transactions_df` belonging to one `groupby('CustomerID')`
group: those whose (non-null) customer identifier equals `c`. -/
def groupRows (rows : List TransRow) (c : Nat) : List TransRow :=
  rows.filter (fun r => r.customerId = some c)

/-- The group keys of `groupby('CustomerID')`: the distinct non-null
customer identifiers, sorted ascending (pandas `sort=True` default). -/
def customerKeys (rows : List TransRow) : List Nat :=
  List.insertionSort (· ≤ ·) (rows.filterMap (fun r => r.customerId)).dedup

/-- One aggregated row, per the `agg` dictionary of lines 107-111:
`TransactionID: count` counts the non-null transaction identifiers in the
group, `TotalValue: sum`/`TotalValue: mean` sum and average the group's
total values, `Quantity: sum` sums the quantities. -/
def behaviorRow (rows : List TransRow) (c : Nat) : BehaviorRow :=
  let g := groupRows rows c
  { customerId := c
    total_transactions := (g.filter (fun r => r.transactionId.isSome)).length
    total_spend := (g.map (fun r => r.totalValue)).sum
    avg_transaction_value := (g.map (fun r => r.totalValue)).sum / (g.length : Rat)
    total_items := (g.map (fun r => r.quantity)).sum }

/-- The full `groupby('CustomerID').agg(...).reset_index()` result: one
aggregated row per distinct non-null customer identifier, in ascending key
order. -/
def aggregateBehavior (rows : List TransRow) : List BehaviorRow :=
  (customerKeys rows).map (behaviorRow rows)

/-- The inner merge on line 100: each transaction row paired with every
customers row sharing its customer identifier.  The source computes this
(`customer_transactions`) and never uses it. -/
def mergeCustomerTransactions (trans : List TransRow) (custs : List CustRow) :
    List (TransRow × CustRow) :=
  trans.flatMap (fun t =>
    (custs.filter (fun c => t.customerId = some c.customerId)).map (fun c => (t, c)))

/-- The customers-table columns `analyze_customer_behavior` dereferences
(`customers_df[['CustomerID', 'Region']]` on line 102). -/
def custSchemaOk (customers : CustomersTable) : Prop :=
  customers.schema.hasCustomerId = true ∧ customers.schema.hasRegion = true

instance (customers : CustomersTable) : Decidable (custSchemaOk customers) := by
  unfold custSchemaOk; infer_instance

/-- The transactions-table columns that `analyze_customer_behavior`
dereferences: `CustomerID` (merge key and groupby key), and
`TransactionID`, `TotalValue`, `Quantity` (the `agg` dictionary). -/
def transSchemaOk (trans : TransTable) : Prop :=
  trans.schema.hasTransactionId = true ∧ trans.schema.hasCustomerId = true ∧
    trans.schema.hasTotalValue = true ∧ trans.schema.hasQuantity = true

instance (trans : TransTable) : Decidable (transSchemaOk trans) := by
  unfold transSchemaOk; infer_instance

/-- Embedding of `analyze_customer_behavior` (lines 95-115).  Line 100-104 selects
`CustomerID`/`Region` from the customers table and merges on `CustomerID`
(raising on a missing column; result unused); lines 107-111 group the
transactions by `CustomerID` and aggregate (raising if any column of the
`agg` dictionary is absent); line 113 renames the columns. -/
def analyze_customer_behavior (customers : CustomersTable) (trans : TransTable) :
    Except SchemaError BehaviorOutput :=
  if customers.schema.hasCustomerId && customers.schema.hasRegion &&
      trans.schema.hasCustomerId then
    let _customer_transactions := mergeCustomerTransactions trans.rows customers.rows
    if trans.schema.hasTransactionId && trans.schema.hasTotalValue &&
        trans.schema.hasQuantity then
      Except.ok { columns := outputColumns, rows := aggregateBehavior trans.rows }
    else
      Except.error SchemaError.missingColumn
  else
    Except.error SchemaError.missingColumn

/-- The function `analyze_customer_behavior` with its state threaded explicitly: the
function body never writes into either argument table (merge, groupby,
agg and reset_index all return fresh frames; the only column assignment,
line 113, targets the local `customer_metrics`), so both tables come back
unchanged alongside the result. -/
def analyze_customer_behavior_run (customers : CustomersTable) (trans : TransTable) :
    Except SchemaError BehaviorOutput × CustomersTable × TransTable :=
  (analyze_customer_behavior customers trans, customers, trans)

/-- Column assignment `df[name] = ...`: adds the column when absent
(assigning to an existing column leaves the column list unchanged). -/
def addColumn (cols : List String) (name : String) : List String :=
  if name ∈ cols then cols else cols ++ [name]

/-- The columns of `Transactions.csv` as loaded. -/
def transactionsCsvColumns : List String :=
  ["TransactionID", "CustomerID", "ProductID", "Quantity", "TotalValue", "TransactionDate"]

/-- Effect of `perform_eda` on the transactions table's columns: lines
49-50 assign `Year` and `Month` in place. -/
def perform_eda_transColumns (cols : List String) : List String :=
  addColumn (addColumn cols "Year") "Month"

/-- Effect of `perform_eda` on the customers table's columns: it only
reads the table. -/
def perform_eda_custColumns (cols : List String) : List String := cols

/-- Effect of `perform_eda` on the products table's columns: it only
reads the table. -/
def perform_eda_prodColumns (cols : List String) : List String := cols

/-- Effect of `generate_visualizations` on the transactions table's
columns: line 84 assigns `YearMonth` in place. -/
def generate_visualizations_transColumns (cols : List String) : List String :=
  addColumn cols "YearMonth"

/-- Effect of `generate_visualizations` on the customers table's columns:
it only reads the table. -/
def generate_visualizations_custColumns (cols : List String) : List String := cols

/-- Effect of `generate_visualizations` on the products table's columns:
it only reads the table. -/
def generate_visualizations_prodColumns (cols : List String) : List String := cols

/-- The transactions table's columns after `main` has run `perform_eda`
then `generate_visualizations` (the only two callees that write into a
loaded table; `analyze_customer_behavior` threads its inputs unchanged). -/
def main_transColumns : List String :=
  generate_visualizations_transColumns (perform_eda_transColumns transactionsCsvColumns)

/-- The columns added in place to the loaded transactions table over the
whole run. -/
def main_addedTransColumns : List String :=
  main_transColumns.filter (fun c => ¬ c ∈ transactionsCsvColumns)

/-! ## Concrete tables used to instantiate hypotheses -/

/-- Concrete transaction rows: two transactions of customer 1, one of them
with a null `TransactionID`, and one row with a null `CustomerID`. -/
def nullIdRows : List TransRow :=
  [ { transactionId := some 1, customerId := some 1, productId := some 1,
      quantity := 1, totalValue := 10 },
    { transactionId := none, customerId := some 1, productId := some 1,
      quantity := 1, totalValue := 20 },
    { transactionId := some 2, customerId := none, productId := some 1,
      quantity := 5, totalValue := 99 } ]

/-- The single aggregated row produced from `nullIdRows` (only customer 1
has a non-null identifier; its null-`TransactionID` row is not counted but
its value and quantity are summed). -/
def nullIdOutRow : BehaviorRow :=
  { customerId := 1, total_transactions := 1, total_spend := 30,
    avg_transaction_value := 15, total_items := 2 }

/-- A customers table with the full CSV schema and no rows. -/
def fullCustTable : CustomersTable :=
  { schema := { hasCustomerId := true, hasRegion := true, hasSignupDate := true },
    rows := [] }

/-- A second customers table, holding one customer whose identifier
matches no transaction. -/
def otherCustTable : CustomersTable :=
  { schema := { hasCustomerId := true, hasRegion := true, hasSignupDate := true },
    rows := [{ customerId := 3, region := "Asia" }] }

/-- A transactions table with the full CSV schema and the `nullIdRows`. -/
def nullIdTransTable : TransTable :=
  { schema :=
      { hasTransactionId := true, hasCustomerId := true, hasProductId := true,
        hasQuantity := true, hasTotalValue := true, hasTransactionDate := true },
    rows := nullIdRows }

/-- A transactions table whose schema lacks only the `TransactionID`
column. -/
def noTidTransTable : TransTable :=
  { schema :=
      { hasTransactionId := false, hasCustomerId := true, hasProductId := true,
        hasQuantity := true, hasTotalValue := true, hasTransactionDate := true },
    rows := [] }

/-- An empty transactions table with the full CSV schema. -/
def emptyTransTable : TransTable :=
  { schema :=
      { hasTransactionId := true, hasCustomerId := true, hasProductId := true,
        hasQuantity := true, hasTotalValue := true, hasTransactionDate := true },
    rows := [] }

/-! ## Helper lemmas -/

lemma mem_customerKeys {rows : List TransRow} {c : Nat} :
    c ∈ customerKeys rows ↔ ∃ r ∈ rows, r.customerId = some c := by
  unfold customerKeys
  rw [(List.perm_insertionSort _ _).mem_iff, List.mem_dedup, List.mem_filterMap]

lemma customerKeys_nodup (rows : List TransRow) : (customerKeys rows).Nodup :=
  (List.perm_insertionSort _ _).nodup_iff.mpr (List.nodup_dedup _)

lemma length_customerKeys (rows : List TransRow) :
    (customerKeys rows).length = (rows.filterMap (fun r => r.customerId)).dedup.length :=
  (List.perm_insertionSort _ _).length_eq

lemma behaviorRow_customerId (rows : List TransRow) (c : Nat) :
    (behaviorRow rows c).customerId = c := rfl

lemma mem_aggregateBehavior {rows : List TransRow} {row : BehaviorRow} :
    row ∈ aggregateBehavior rows ↔ ∃ c ∈ customerKeys rows, behaviorRow rows c = row :=
  List.mem_map

lemma groupRows_ne_nil {rows : List TransRow} {c : Nat} (h : c ∈ customerKeys rows) :
    groupRows rows c ≠ [] := by
  obtain ⟨r, hr, hrc⟩ := mem_customerKeys.mp h
  intro hnil
  have hmem : r ∈ groupRows rows c := List.mem_filter.mpr ⟨hr, by simp [hrc]⟩
  rw [hnil] at hmem
  exact List.not_mem_nil r hmem

lemma aggregateBehavior_nullIdRows : aggregateBehavior nullIdRows = [nullIdOutRow] := by
  simp [aggregateBehavior, customerKeys, behaviorRow, groupRows, List.insertionSort,
    List.orderedInsert, List.dedup, List.pwFilter, List.filterMap, List.filter,
    nullIdRows, nullIdOutRow]
  norm_num

lemma nullIdOutRow_mem : nullIdOutRow ∈ aggregateBehavior nullIdRows := by
  rw [aggregateBehavior_nullIdRows]
  exact List.mem_singleton.mpr rfl

/-! ## Claim theorems -/

/-- C1: the Behavior Aggregator produces exactly one output row per
distinct non-null customer identifier present in the Transaction table:
the output row count equals the number of distinct non-null customer
identifiers, the output's customer identifiers are pairwise distinct, and
an identifier appears in the output iff some input row carries it. -/
theorem C1_one_row_per_distinct_customer (rows : List TransRow) :
    (aggregateBehavior rows).length
        = (rows.filterMap (fun r => r.customerId)).dedup.length ∧
    ((aggregateBehavior rows).map (fun row => row.customerId)).Nodup ∧
    (∀ c : Nat, (∃ row ∈ aggregateBehavior rows, row.customerId = c)
        ↔ ∃ r ∈ rows, r.customerId = some c) := by
  have hmap : (aggregateBehavior rows).map (fun row => row.customerId)
      = customerKeys rows := by
    rw [aggregateBehavior, List.map_map]
    exact List.map_id _
  refine ⟨?_, ?_, ?_⟩
  · rw [aggregateBehavior, List.length_map, length_customerKeys]
  · rw [hmap]
    exact customerKeys_nodup rows
  · intro c
    constructor
    · rintro ⟨row, hrow, hc⟩
      obtain ⟨k, hk, hbr⟩ := mem_aggregateBehavior.mp hrow
      have : k = c := by rw [← hc, ← hbr, behaviorRow_customerId]
      exact mem_customerKeys.mp (this ▸ hk)
    · rintro ⟨r, hr, hrc⟩
      have hk : c ∈ customerKeys rows := mem_customerKeys.mpr ⟨r, hr, hrc⟩
      exact ⟨behaviorRow rows c, mem_aggregateBehavior.mpr ⟨c, hk, rfl⟩,
        behaviorRow_customerId rows c⟩

/-- C2: for every output row of the Behavior Aggregator, `total_spend` is
the sum of `TotalValue` over that customer's transactions in the input,
and `total_items` is the sum of `Quantity` over them (exact equalities in
the rational embedding, hence within any floating-point epsilon). -/
theorem C2_total_spend_and_items (rows : List TransRow) (row : BehaviorRow)
    (h : row ∈ aggregateBehavior rows) :
    row.total_spend = ((groupRows rows row.customerId).map (fun r => r.totalValue)).sum ∧
    row.total_items = ((groupRows rows row.customerId).map (fun r => r.quantity)).sum := by
  obtain ⟨c, hc, hbr⟩ := mem_aggregateBehavior.mp h
  subst hbr
  exact ⟨rfl, rfl⟩

/-- Witness for C2: the aggregated row of customer 1 in the `nullIdRows`
table has `total_spend` 30 and `total_items` 2, the sums over both of that
customer's rows. -/
theorem C2_witness :
    nullIdOutRow ∈ aggregateBehavior nullIdRows ∧
    (nullIdOutRow.total_spend
        = ((groupRows nullIdRows nullIdOutRow.customerId).map (fun r => r.totalValue)).sum ∧
     nullIdOutRow.total_items
        = ((groupRows nullIdRows nullIdOutRow.customerId).map (fun r => r.quantity)).sum) :=
  ⟨nullIdOutRow_mem, C2_total_spend_and_items nullIdRows nullIdOutRow nullIdOutRow_mem⟩

/-- C7: the rows of the Behavior Aggregator's output are ordered by
ascending customer identifier, for every Transaction input. -/
theorem C7_output_sorted_by_customer (rows : List TransRow) :
    List.Sorted (· ≤ ·) ((aggregateBehavior rows).map (fun row => row.customerId)) := by
  have hmap : (aggregateBehavior rows).map (fun row => row.customerId)
      = customerKeys rows := by
    rw [aggregateBehavior, List.map_map]
    exact List.map_id _
  rw [hmap]
  exact List.sorted_insertionSort _ _

/-- C8: running the Behavior Aggregator twice on the same input yields the
identical output, and the first run hands both input tables back
unchanged (the body never writes into its arguments). -/
theorem C8_idempotent_and_input_preserving (customers : CustomersTable)
    (trans : TransTable) :
    (analyze_customer_behavior_run customers trans).2 = (customers, trans) ∧
    (analyze_customer_behavior_run (analyze_customer_behavior_run customers trans).2.1
        (analyze_customer_behavior_run customers trans).2.2).1
      = (analyze_customer_behavior_run customers trans).1 :=
  ⟨rfl, rfl⟩

lemma sum_map_filter_tid {α : Type} [AddCommMonoid α] (l : List TransRow) (f : TransRow → α) :
    ((l.filter (fun r => r.transactionId.isSome)).map f).sum
      + ((l.filter (fun r => r.transactionId = none)).map f).sum = (l.map f).sum := by
  induction l with
  | nil => simp
  | cons hd tl ih =>
    cases hht : hd.transactionId with
    | none => simp [List.filter_cons, hht, ← ih, add_left_comm]
    | some v => simp [List.filter_cons, hht, ← ih, add_assoc]

/-- C3 fails as stated: on `nullIdRows`, customer 1 has a positive
`total_transactions` (one non-null `TransactionID`), yet
`avg_transaction_value * total_transactions` is 15 while `total_spend` is
30 — far beyond a relative tolerance of one in a billion. -/
theorem C3_counterexample :
    ∃ row ∈ aggregateBehavior nullIdRows, 0 < row.total_transactions ∧
      row.avg_transaction_value * (row.total_transactions : Rat) ≠ row.total_spend ∧
      |row.avg_transaction_value * (row.total_transactions : Rat) - row.total_spend|
        > (1 / 1000000000) * |row.total_spend| := by
  refine ⟨nullIdOutRow, nullIdOutRow_mem, ?_, ?_, ?_⟩ <;> norm_num [nullIdOutRow]

/-- C3 (amended): `avg_transaction_value` times the number of that
customer's rows equals `total_spend` exactly; consequently, whenever every
row of the customer's group has a non-null `TransactionID` (so that
`total_transactions` equals the group size), `avg_transaction_value *
total_transactions = total_spend`. -/
theorem C3_avg_times_group_size (rows : List TransRow) (row : BehaviorRow)
    (h : row ∈ aggregateBehavior rows) :
    row.avg_transaction_value * ((groupRows rows row.customerId).length : Rat)
        = row.total_spend ∧
    ((∀ r ∈ groupRows rows row.customerId, r.transactionId.isSome = true) →
      row.avg_transaction_value * (row.total_transactions : Rat) = row.total_spend) := by
  obtain ⟨c, hc, hbr⟩ := mem_aggregateBehavior.mp h
  subst hbr
  have hne : groupRows rows c ≠ [] := groupRows_ne_nil hc
  have hlen : ((groupRows rows c).length : Rat) ≠ 0 :=
    Nat.cast_ne_zero.mpr (fun h0 => hne (List.length_eq_zero.mp h0))
  constructor
  · exact div_mul_cancel₀ _ hlen
  · intro hall
    have hfe : (groupRows rows c).filter (fun r => r.transactionId.isSome)
        = groupRows rows c := List.filter_eq_self.mpr hall
    show ((groupRows rows c).map (fun r => r.totalValue)).sum / ((groupRows rows c).length : Rat)
        * ((((groupRows rows c).filter (fun r => r.transactionId.isSome)).length : Nat) : Rat)
      = ((groupRows rows c).map (fun r => r.totalValue)).sum
    rw [hfe]
    exact div_mul_cancel₀ _ hlen

/-- Witness for the amended C3 at the concrete `nullIdRows` input. -/
theorem C3_witness :
    nullIdOutRow ∈ aggregateBehavior nullIdRows ∧
    (nullIdOutRow.avg_transaction_value
          * ((groupRows nullIdRows nullIdOutRow.customerId).length : Rat)
        = nullIdOutRow.total_spend ∧
      ((∀ r ∈ groupRows nullIdRows nullIdOutRow.customerId, r.transactionId.isSome = true) →
        nullIdOutRow.avg_transaction_value * (nullIdOutRow.total_transactions : Rat)
          = nullIdOutRow.total_spend)) :=
  ⟨nullIdOutRow_mem, C3_avg_times_group_size nullIdRows nullIdOutRow nullIdOutRow_mem⟩

/-- C4: on an empty Transaction table (with all columns present in the
schema), the Behavior Aggregator returns an empty output table that still
carries the five renamed column headers, and no error is raised. -/
theorem C4_empty_input (customers : CustomersTable) (trans : TransTable)
    (hc : custSchemaOk customers) (ht : transSchemaOk trans) (he : trans.rows = []) :
    analyze_customer_behavior customers trans =
      Except.ok { columns := ["CustomerID", "total_transactions", "total_spend",
        "avg_transaction_value", "total_items"], rows := [] } := by
  obtain ⟨hc1, hc2⟩ := hc
  obtain ⟨ht1, ht2, ht3, ht4⟩ := ht
  simp [analyze_customer_behavior, hc1, hc2, ht1, ht2, ht3, ht4, he, outputColumns,
    aggregateBehavior, customerKeys]

/-- Witness for C4 at the concrete empty table. -/
theorem C4_witness :
    custSchemaOk fullCustTable ∧ transSchemaOk emptyTransTable ∧
    emptyTransTable.rows = [] ∧
    analyze_customer_behavior fullCustTable emptyTransTable =
      Except.ok { columns := ["CustomerID", "total_transactions", "total_spend",
        "avg_transaction_value", "total_items"], rows := [] } :=
  ⟨⟨rfl, rfl⟩, ⟨rfl, rfl, rfl, rfl⟩, rfl,
    C4_empty_input fullCustTable emptyTransTable ⟨rfl, rfl⟩ ⟨rfl, rfl, rfl, rfl⟩ rfl⟩

/-- C5 fails as stated: a Transaction table that has the customer
identifier, total value and quantity columns but lacks `TransactionID`
still makes `analyze_customer_behavior` fail with a schema error, because
the `agg` dictionary also dereferences `TransactionID`. -/
theorem C5_counterexample :
    noTidTransTable.schema.hasCustomerId = true ∧
    noTidTransTable.schema.hasTotalValue = true ∧
    noTidTransTable.schema.hasQuantity = true ∧
    custSchemaOk fullCustTable ∧
    analyze_customer_behavior fullCustTable noTidTransTable
      = Except.error SchemaError.missingColumn :=
  ⟨rfl, rfl, rfl, ⟨rfl, rfl⟩, rfl⟩

/-- C5 (amended): given a Customer table carrying its two dereferenced
columns, the Behavior Aggregator fails with a schema error iff the
Transaction table is missing any of the four columns it dereferences —
`TransactionID`, `CustomerID`, `TotalValue`, `Quantity`; the error is
returned to the caller (no retry or recovery). -/
theorem C5_schema_error_iff (customers : CustomersTable) (trans : TransTable)
    (hc : custSchemaOk customers) :
    analyze_customer_behavior customers trans = Except.error SchemaError.missingColumn
      ↔ ¬ transSchemaOk trans := by
  obtain ⟨hc1, hc2⟩ := hc
  rcases trans with ⟨⟨t1, t2, t3, t4, t5, t6⟩, rws⟩
  simp only [analyze_customer_behavior, transSchemaOk, hc1, hc2]
  cases t1 <;> cases t2 <;> cases t4 <;> cases t5 <;> simp

/-- Witness for the amended C5: with a full-schema Customer table and the
table lacking only `TransactionID`, the error is raised and the
right-hand side of the equivalence indeed holds. -/
theorem C5_witness :
    custSchemaOk fullCustTable ∧
    (analyze_customer_behavior fullCustTable noTidTransTable
        = Except.error SchemaError.missingColumn ↔ ¬ transSchemaOk noTidTransTable) :=
  ⟨⟨rfl, rfl⟩, C5_schema_error_iff fullCustTable noTidTransTable ⟨rfl, rfl⟩⟩

/-- C6: the Behavior Aggregator's output depends only on the Transaction
table — any two Customer tables carrying the dereferenced columns give
identical results — and when the Transaction schema is complete the call
succeeds regardless of which customers appear in the Customer table (a
transaction referencing an absent customer raises no error). -/
theorem C6_output_independent_of_customers (c1 c2 : CustomersTable) (trans : TransTable)
    (h1 : custSchemaOk c1) (h2 : custSchemaOk c2) :
    analyze_customer_behavior c1 trans = analyze_customer_behavior c2 trans ∧
    (transSchemaOk trans → ∃ out, analyze_customer_behavior c1 trans = Except.ok out) := by
  obtain ⟨h11, h12⟩ := h1
  obtain ⟨h21, h22⟩ := h2
  constructor
  · simp [analyze_customer_behavior, h11, h12, h21, h22]
  · rintro ⟨t1, t2, t3, t4⟩
    refine ⟨{ columns := outputColumns, rows := aggregateBehavior trans.rows }, ?_⟩
    simp [analyze_customer_behavior, h11, h12, t1, t2, t3, t4]

/-- Witness for C6: the transactions of `nullIdTransTable` reference
customer 1, absent from both concrete Customer tables (one empty, one
holding only customer 3); the outputs coincide and the call succeeds. -/
theorem C6_witness :
    custSchemaOk fullCustTable ∧ custSchemaOk otherCustTable ∧
    (analyze_customer_behavior fullCustTable nullIdTransTable
        = analyze_customer_behavior otherCustTable nullIdTransTable ∧
      (transSchemaOk nullIdTransTable →
        ∃ out, analyze_customer_behavior fullCustTable nullIdTransTable = Except.ok out)) :=
  ⟨⟨rfl, rfl⟩, ⟨rfl, rfl⟩,
    C6_output_independent_of_customers fullCustTable otherCustTable nullIdTransTable
      ⟨rfl, rfl⟩ ⟨rfl, rfl⟩⟩

/-- C9 fails as stated: over the whole run, three in-place calendar
columns are added to the loaded Transaction table — `Year` and `Month` by
`perform_eda`, and also `YearMonth` by `generate_visualizations` — not
exactly two. -/
theorem C9_counterexample :
    main_addedTransColumns = ["Year", "Month", "YearMonth"] ∧
    ¬ main_addedTransColumns.length = 2 :=
  ⟨rfl, by decide⟩

/-- C9 (amended): no loaded entity's values are mutated after
construction; the only in-place writes over the run are the addition of
exactly three transient calendar-derived columns to the Transaction table
(`Year` and `Month` in `perform_eda`, `YearMonth` in
`generate_visualizations`), while the Customers and Products tables keep
their columns unchanged. -/
theorem C9_three_transient_columns :
    main_addedTransColumns = ["Year", "Month", "YearMonth"] ∧
    main_transColumns = transactionsCsvColumns ++ ["Year", "Month", "YearMonth"] ∧
    (∀ cols, perform_eda_custColumns cols = cols) ∧
    (∀ cols, perform_eda_prodColumns cols = cols) ∧
    (∀ cols, generate_visualizations_custColumns cols = cols) ∧
    (∀ cols, generate_visualizations_prodColumns cols = cols) :=
  ⟨rfl, rfl, fun _ => rfl, fun _ => rfl, fun _ => rfl, fun _ => rfl⟩

/-- C10: `total_transactions` counts only the rows of the customer's group
whose `TransactionID` is non-null, while `total_spend` and `total_items`
sum over the non-null-identifier rows and the null-identifier rows alike —
a row with a null `TransactionID` contributes to both sums but not to the
count. -/
theorem C10_count_nonnull_transaction_ids (rows : List TransRow) (row : BehaviorRow)
    (h : row ∈ aggregateBehavior rows) :
    row.total_transactions
        = ((groupRows rows row.customerId).filter (fun r => r.transactionId.isSome)).length ∧
    row.total_spend
        = (((groupRows rows row.customerId).filter (fun r => r.transactionId.isSome)).map
              (fun r => r.totalValue)).sum
          + (((groupRows rows row.customerId).filter (fun r => r.transactionId = none)).map
              (fun r => r.totalValue)).sum ∧
    row.total_items
        = (((groupRows rows row.customerId).filter (fun r => r.transactionId.isSome)).map
              (fun r => r.quantity)).sum
          + (((groupRows rows row.customerId).filter (fun r => r.transactionId = none)).map
              (fun r => r.quantity)).sum := by
  obtain ⟨c, hc, hbr⟩ := mem_aggregateBehavior.mp h
  subst hbr
  exact ⟨rfl, (sum_map_filter_tid _ _).symm, (sum_map_filter_tid _ _).symm⟩

/-- Witness for C10 at `nullIdRows`, where customer 1 has one null
`TransactionID` row: the count is 1 while both sums include that row. -/
theorem C10_witness :
    nullIdOutRow ∈ aggregateBehavior nullIdRows ∧
    (nullIdOutRow.total_transactions
        = ((groupRows nullIdRows nullIdOutRow.customerId).filter
            (fun r => r.transactionId.isSome)).length ∧
     nullIdOutRow.total_spend
        = (((groupRows nullIdRows nullIdOutRow.customerId).filter
              (fun r => r.transactionId.isSome)).map (fun r => r.totalValue)).sum
          + (((groupRows nullIdRows nullIdOutRow.customerId).filter
              (fun r => r.transactionId = none)).map (fun r => r.totalValue)).sum ∧
     nullIdOutRow.total_items
        = (((groupRows nullIdRows nullIdOutRow.customerId).filter
              (fun r => r.transactionId.isSome)).map (fun r => r.quantity)).sum
          + (((groupRows nullIdRows nullIdOutRow.customerId).filter
              (fun r => r.transactionId = none)).map (fun r => r.quantity)).sum) :=
  ⟨nullIdOutRow_mem, C10_count_nonnull_transaction_ids nullIdRows nullIdOutRow nullIdOutRow_mem⟩
